import Mathlib

/-
Verification development for the Product_Describer backend.

This file gives a shallow embedding of the specification-versioning and
generation-request core of the backend (src/backend/services and the API
routes that drive them), and proves or refutes the specified properties
against it.

Modelling conventions:
* The database is a value of type `DB`: one list of rows per table, in
  insertion order, plus a counter modelling autoincrement primary keys.
  The repository contains no schema-creation code (no create_all, no
  migrations), so database-level constraint enforcement is not modelled;
  sessions are plain row stores and a commit makes pending inserts and
  field updates visible, matching the way the services use SQLAlchemy.
* File storage is a value of type `Storage`: an association list from
  relative path to byte content, plus a counter standing in for the
  timestamp/md5 component of StorageService._generate_filename.
* Bytes are `List Nat`.
* Remote model calls (GPT analysis, Gemini generation) are opaque
  external collaborators; their outcomes are inputs of the embedded
  functions.  The response of one Gemini call is a list of parts
  (`ResponsePart`), exactly the shape walked by
  generate_image_from_specs.
* SQL result order: queries without ORDER BY, and the order among rows
  that compare equal under ORDER BY, are modelled as table (insertion)
  order, which is what PostgreSQL returns for the simple scans issued
  here.
-/

/-! ## Bytes and storage (src/backend/services/storage.py) -/

abbrev Bytes := List Nat

/-- Byte content of a text file written with Python write(str). -/
def strBytes (s : String) : Bytes := s.data.map Char.toNat

/-- Python str.startswith, on the character lists of the strings. -/
def pyStartsWith (s p : String) : Bool := p.data.isPrefixOf s.data

/-- Look a path up in the storage map. -/
def getFile (fs : List (String × Bytes)) (p : String) : Option Bytes :=
  (fs.find? (fun e => e.fst == p)).map (fun e => e.snd)

/-- Write a file: `open(path, "wb")` truncates an existing file or creates a
new one. -/
def setFile (fs : List (String × Bytes)) (p : String) (b : Bytes) :
    List (String × Bytes) :=
  if fs.any (fun e => e.fst == p) then
    fs.map (fun e => if e.fst == p then (p, b) else e)
  else fs ++ [(p, b)]

/-- StorageService.delete_file: unlink if the file exists, swallow
everything else (the Python wraps the unlink in try/except and returns a
Bool; it never raises). -/
def deleteFile (fs : List (String × Bytes)) (p : String) :
    List (String × Bytes) :=
  fs.filter (fun e => !(e.fst == p))

/-- Local file storage.  `counter` models the timestamp+md5 uniquifier of
StorageService._generate_filename. -/
structure Storage where
  files : List (String × Bytes)
  counter : Nat
deriving Repr, DecidableEq

/-- StorageService.save_specification: writes `{slug}/specs/v{version}.yaml`
and returns the relative path. -/
def save_specification (st : Storage) (slug yaml_content : String)
    (version : Nat) : String × Storage :=
  let path := slug ++ "/specs/v" ++ toString version ++ ".yaml"
  (path, { st with files := setFile st.files path (strBytes yaml_content) })

/-- StorageService.save_reference_image: stores the upload under
`{slug}/refs/ref_{timestamp}_{hash}{ext}` (the generated-name part is
modelled by the counter) and returns (filename, relative path). -/
def save_reference_image (st : Storage) (slug : String) (content : Bytes) :
    String × String × Storage :=
  let filename := "ref_" ++ toString st.counter ++ ".png"
  let path := slug ++ "/refs/" ++ filename
  (filename, path,
    { files := setFile st.files path content, counter := st.counter + 1 })

/-- StorageService.save_generated_image: stores the image under
`{slug}/generated/{year}/{month}/gen_{timestamp}_{hash}{ext}` (the
year/month and generated-name parts are modelled by the counter) and
returns (filename, relative path). -/
def save_generated_image (st : Storage) (slug : String) (content : Bytes) :
    String × String × Storage :=
  let filename := "gen_" ++ toString st.counter ++ ".png"
  let path := slug ++ "/generated/" ++ filename
  (filename, path,
    { files := setFile st.files path content, counter := st.counter + 1 })

/-! ## Table rows (src/backend/models) -/

/-- Row of `products` (the columns the core reads). -/
structure Product where
  id : Nat
  name : String
  slug : String
  is_active : Bool
deriving Repr, DecidableEq

/-- Row of `product_specifications` (the columns the core reads; the
derived quick-access columns extracted from the YAML are not consulted by
any of the verified operations and are omitted). -/
structure ProductSpecification where
  id : Nat
  product_id : Nat
  version : Nat
  yaml_content : String
  is_active : Bool
  created_by : Option Nat
  change_notes : Option String
deriving Repr, DecidableEq

/-- Row of `product_reference_images`. -/
structure ProductReferenceImage where
  id : Nat
  product_id : Nat
  filename : String
  storage_path : String
  width : Option Nat
  height : Option Nat
  uploaded_by : Option Nat
  is_primary : Bool
  display_order : Int
deriving Repr, DecidableEq

/-- The `status` column of `generation_requests`
(CheckConstraint valid_status). -/
inductive GenStatus where
  | pending
  | processing
  | completed
  | failed
deriving Repr, DecidableEq

/-- Row of `generation_requests`.  Timestamps are abstract ticks.
`aspect` is the `aspect_ratio` column. -/
structure GenerationRequest where
  id : Nat
  product_id : Nat
  specification_id : Option Nat
  prompt : String
  custom_prompt_override : Option String
  aspect : String
  resolution : String
  image_count : Nat
  status : GenStatus
  started_at : Option Nat
  completed_at : Option Nat
  error_message : Option String
  created_by : Nat
deriving Repr, DecidableEq

/-- Row of `generated_images`. -/
structure GeneratedImage where
  id : Nat
  generation_request_id : Nat
  product_id : Nat
  filename : String
  storage_path : String
  file_size_bytes : Nat
  mime_type : String
  generation_index : Nat
deriving Repr, DecidableEq

/-- The database: one list per table, rows in insertion order, plus the
autoincrement counter for primary keys (shared across tables for
simplicity; only freshness matters). -/
structure DB where
  products : List Product
  specs : List ProductSpecification
  ref_images : List ProductReferenceImage
  gen_requests : List GenerationRequest
  gen_images : List GeneratedImage
  next_id : Nat
deriving Repr, DecidableEq

/-- API error surfaced by an endpoint.  `attributeError` stands for an
uncaught Python AttributeError escaping a route (HTTP 500). -/
inductive ApiError where
  | notFound (detail : String)
  | badRequest (detail : String)
  | attributeError (detail : String)
deriving Repr, DecidableEq

instance {ε α : Type} [DecidableEq ε] [DecidableEq α] :
    DecidableEq (Except ε α) := fun a b =>
  match a, b with
  | .error x, .error y => decidable_of_iff (x = y) (by simp)
  | .error _, .ok _ => isFalse (fun h => Except.noConfusion h)
  | .ok _, .error _ => isFalse (fun h => Except.noConfusion h)
  | .ok x, .ok y => decidable_of_iff (x = y) (by simp)

/-! ## Query helpers -/

/-- Specification rows of one product, in table order. -/
def specsOf (db : DB) (pid : Nat) : List ProductSpecification :=
  db.specs.filter (fun s => s.product_id == pid)

/-- Version numbers of one product's specifications, in table order. -/
def versionsOf (db : DB) (pid : Nat) : List Nat :=
  (specsOf db pid).map (fun s => s.version)

/-- Specification rows of one product that carry `is_active = true`. -/
def activeSpecs (db : DB) (pid : Nat) : List ProductSpecification :=
  db.specs.filter (fun s => s.product_id == pid && s.is_active)

/-- Version numbers of one product among a list of specification rows. -/
def listVersions (l : List ProductSpecification) (pid : Nat) : List Nat :=
  (l.filter (fun s => s.product_id == pid)).map (fun s => s.version)

/-- The gapless-from-1 versioning invariant: the version numbers of a
product are exactly 1..n, each once. -/
def gapless (db : DB) (pid : Nat) : Prop :=
  List.Perm (versionsOf db pid) (List.range' 1 (versionsOf db pid).length)

instance (db : DB) (pid : Nat) : Decidable (gapless db pid) := by
  unfold gapless; infer_instance

/-! ## SpecificationService (src/backend/services/specification.py) -/

/-- SpecificationService.create_specification: verify the product, take
the highest existing version + 1 (or 1), deactivate every specification of
the product, save the YAML file, insert the new row with
`is_active = true`, commit. -/
def create_specification (db : DB) (st : Storage) (product_id : Nat)
    (yaml_content : String) (created_by : Nat) (change_notes : Option String) :
    Except ApiError (ProductSpecification × DB × Storage) :=
  match db.products.find? (fun p => p.id == product_id) with
  | none => .error (.notFound "Product not found")
  | some product =>
    let new_version :=
      ((specsOf db product_id).map (fun s => s.version)).foldr Nat.max 0 + 1
    let deactivated := db.specs.map (fun s =>
      if s.product_id == product_id then { s with is_active := false } else s)
    let st1 := (save_specification st product.slug yaml_content new_version).2
    let new_spec : ProductSpecification :=
      { id := db.next_id, product_id := product_id, version := new_version,
        yaml_content := yaml_content, is_active := true,
        created_by := some created_by, change_notes := change_notes }
    .ok (new_spec,
      { db with specs := deactivated ++ [new_spec], next_id := db.next_id + 1 },
      st1)

/-- SpecificationService.activate_specification (also the body of the
POST /specifications/{spec_id}/activate route): find the row, deactivate
every specification of its product, set the row active, commit. -/
def activate_specification (db : DB) (spec_id : Nat) :
    Except ApiError (ProductSpecification × DB) :=
  match db.specs.find? (fun s => s.id == spec_id) with
  | none => .error (.notFound "Specification not found")
  | some spec =>
    let specs1 := db.specs.map (fun s =>
      if s.product_id == spec.product_id then { s with is_active := false } else s)
    let specs2 := specs1.map (fun s =>
      if s.id == spec_id then { s with is_active := true } else s)
    .ok ({ spec with is_active := true }, { db with specs := specs2 })

/-! ## AnalysisService (src/backend/services/analysis.py) -/

/-- AnalysisService.analyze_product together with its route
POST /products/{product_id}/analyze: verify the product, require at least
one reference image, run the GPT call (opaque; its dumped YAML result is
the `yaml_content` input here), set the version to the row COUNT of the
product's specifications + 1, deactivate the product's active
specifications, insert the new row active, commit, save the YAML file. -/
def analyze_product (db : DB) (st : Storage) (product_id : Nat)
    (yaml_content : String) : Except ApiError (ProductSpecification × DB × Storage) :=
  match db.products.find? (fun p => p.id == product_id) with
  | none => .error (.notFound "Product not found")
  | some product =>
    let reference_images := db.ref_images.filter (fun r => r.product_id == product_id)
    if reference_images.isEmpty then
      .error (.badRequest "No reference images found. Please upload images first.")
    else
      let max_version := (specsOf db product_id).length
      let deactivated := db.specs.map (fun s =>
        if s.product_id == product_id && s.is_active then
          { s with is_active := false } else s)
      let spec : ProductSpecification :=
        { id := db.next_id, product_id := product_id, version := max_version + 1,
          yaml_content := yaml_content, is_active := true,
          created_by := none, change_notes := none }
      let st1 := (save_specification st product.slug yaml_content spec.version).2
      .ok (spec,
        { db with specs := deactivated ++ [spec], next_id := db.next_id + 1 },
        st1)

/-- AnalysisService.update_specification together with its route
PUT /specifications/{spec_id}: find the row by id (any version, active or
not), set `is_active = false` ON THAT ROW ONLY, insert a new row with
version = that row's version + 1 and `is_active = true`, commit, save the
YAML file.  Note: unlike create/activate it does not deactivate the other
rows of the product, and it does not consult the product's maximum
version. -/
def update_specification (db : DB) (st : Storage) (spec_id : Nat)
    (yaml_content : String) (change_notes : Option String) :
    Except ApiError (ProductSpecification × DB × Storage) :=
  match db.specs.find? (fun s => s.id == spec_id) with
  | none => .error (.notFound "Specification not found")
  | some spec =>
    let specs1 := db.specs.map (fun s =>
      if s.id == spec_id then { s with is_active := false } else s)
    let new_spec : ProductSpecification :=
      { id := db.next_id, product_id := spec.product_id,
        version := spec.version + 1, yaml_content := yaml_content,
        is_active := true, created_by := none, change_notes := change_notes }
    match db.products.find? (fun p => p.id == spec.product_id) with
    | none => .error (.attributeError "NoneType has no attribute slug")
    | some product =>
      let st1 := (save_specification st product.slug yaml_content new_spec.version).2
      .ok (new_spec,
        { db with specs := specs1 ++ [new_spec], next_id := db.next_id + 1 },
        st1)

/-! ## ReferenceImageService (src/backend/services/reference_image.py) -/

/-- Largest display_order among a product's images
(the ORDER BY display_order DESC LIMIT 1 query). -/
def maxDisplayOrder (l : List ProductReferenceImage) : Option Int :=
  l.foldr (fun r acc =>
    match acc with
    | none => some r.display_order
    | some m => some (max r.display_order m)) none

/-- ReferenceImageService.upload_reference_image (route
POST /products/{product_id}/reference-images): verify the product, reject
a 5th image, reject a non-image content type, REJECT an undecodable image
(PIL failure raises HTTP 400 "Invalid image file"), store the bytes,
assign display_order = max existing + 1 (or 0) and is_primary iff first
image, insert, commit.  `decoded` is the outcome of
PIL.Image.open(...).size on the uploaded bytes. -/
def upload_reference_image (db : DB) (st : Storage) (product_id : Nat)
    (content : Bytes) (filename : String) (content_type : Option String)
    (decoded : Option (Nat × Nat)) (uploaded_by : Nat) :
    Except ApiError (ProductReferenceImage × DB × Storage) :=
  match db.products.find? (fun p => p.id == product_id) with
  | none => .error (.notFound "Product not found")
  | some product =>
    let existing_count :=
      (db.ref_images.filter (fun r => r.product_id == product_id)).length
    if existing_count ≥ 4 then
      .error (.badRequest "Maximum of 4 reference images allowed per product")
    else
      match content_type with
      | none => .error (.badRequest "File must be an image")
      | some ct =>
        if !(pyStartsWith ct "image/") then
          .error (.badRequest "File must be an image")
        else
          match decoded with
          | none => .error (.badRequest "Invalid image file")
          | some wh =>
            let saved := save_reference_image st product.slug content
            let next_order : Int :=
              match maxDisplayOrder
                  (db.ref_images.filter (fun r => r.product_id == product_id)) with
              | some m => m + 1
              | none => 0
            let ref_image : ProductReferenceImage :=
              { id := db.next_id, product_id := product_id,
                filename := filename, storage_path := saved.2.1,
                width := some wh.1, height := some wh.2,
                uploaded_by := some uploaded_by,
                is_primary := existing_count == 0,
                display_order := next_order }
            .ok (ref_image,
              { db with ref_images := db.ref_images ++ [ref_image],
                        next_id := db.next_id + 1 },
              saved.2.2)

/-- ReferenceImageService.delete_reference_image: find the row, delete the
stored file, delete the row, commit.  No reassignment of is_primary or
display_order happens. -/
def delete_reference_image (db : DB) (st : Storage) (image_id : Nat) :
    Except ApiError (DB × Storage) :=
  match db.ref_images.find? (fun r => r.id == image_id) with
  | none => .error (.notFound "Reference image not found")
  | some image =>
    .ok ({ db with ref_images := db.ref_images.filter (fun r => !(r.id == image_id)) },
         { st with files := deleteFile st.files image.storage_path })

/-- ReferenceImageService.update_display_order: set display_order on the
one row; siblings are not renumbered. -/
def update_display_order (db : DB) (image_id : Nat) (new_order : Int) :
    Except ApiError (ProductReferenceImage × DB) :=
  match db.ref_images.find? (fun r => r.id == image_id) with
  | none => .error (.notFound "Reference image not found")
  | some image =>
    .ok ({ image with display_order := new_order },
      { db with ref_images := db.ref_images.map (fun r =>
          if r.id == image_id then { r with display_order := new_order } else r) })

/-! ## Generation adapter
(src/product_describer/generate_test.py and
GenerationService._generate_single_image) -/

/-- One part of a Gemini generate_content response: either commentary text
or an image (its decoded bytes as re-saved by PIL). -/
inductive ResponsePart where
  | text (t : String)
  | image (data : Bytes)
deriving Repr, DecidableEq

/-- generate_image_from_specs, response-processing tail: walk the parts,
log text parts, save each image part to output_path (a later image part
overwrites an earlier one).  If no image part was present it only LOGS a
warning and returns normally - despite its docstring claiming APIError is
raised on failure.  Returns (content of output_path, image_saved flag)
given the file's prior content. -/
def generate_image_from_specs (response_parts : List ResponsePart)
    (file0 : Bytes) : Bytes × Bool :=
  response_parts.foldl (fun acc part =>
    match part with
    | .text _ => acc
    | .image data => (data, true)) (file0, false)

/-- GenerationService._generate_single_image: make an EMPTY named
temporary file, run generate_image_from_specs against it, read the file
back and return its bytes.  `call_result` is the outcome of the remote
Gemini call: an exception (ServerError etc.), or the response parts.  A
response with no image part leaves the temporary file empty, so the
function returns zero-length bytes as a success. -/
def generate_single_image (call_result : Except String (List ResponsePart)) :
    Except String Bytes :=
  match call_result with
  | .error e => .error e
  | .ok parts => .ok (generate_image_from_specs parts []).1

/-! ## GenerationService (src/backend/services/generation.py) and its API
routes (src/backend/api/generation.py) -/

/-- GenerationService.create_generation_request: insert the row with
status "pending" and commit; no validation of any argument, in particular
none of specification_id. -/
def create_generation_request (db : DB) (product_id : Nat) (prompt : String)
    (specification_id : Option Nat) (aspect resolution : String)
    (image_count : Nat) (custom_prompt_override : Option String)
    (user_id : Nat) : GenerationRequest × DB :=
  let gen_request : GenerationRequest :=
    { id := db.next_id, product_id := product_id,
      specification_id := specification_id, prompt := prompt,
      custom_prompt_override := custom_prompt_override,
      aspect := aspect, resolution := resolution,
      image_count := image_count, status := .pending,
      started_at := none, completed_at := none,
      error_message := none, created_by := user_id }
  (gen_request,
    { db with gen_requests := db.gen_requests ++ [gen_request],
              next_id := db.next_id + 1 })

/-- Route POST /products/{product_id}/generate: 404 if the product does
not exist, then create_generation_request (the background dispatch of
process_generation is outside this function). -/
def create_generation (db : DB) (product_id : Nat) (prompt : String)
    (specification_id : Option Nat) (aspect resolution : String)
    (image_count : Nat) (custom_prompt_override : Option String)
    (user_id : Nat) : Except ApiError (GenerationRequest × DB) :=
  match db.products.find? (fun p => p.id == product_id) with
  | none => .error (.notFound "Product not found")
  | some _ =>
    .ok (create_generation_request db product_id prompt specification_id
      aspect resolution image_count custom_prompt_override user_id)

/-- Specification resolution of process_generation (lines 150-162):
`if request.specification_id:` - Python truthiness, so a specification_id
of 0 takes the ACTIVE-specification branch - then a lookup by id alone
(the product is not checked), else the first row of the product with
`is_active = true`. -/
def resolve_specification (specs : List ProductSpecification)
    (specification_id : Option Nat) (product_id : Nat) :
    Option ProductSpecification :=
  match specification_id with
  | some sid =>
    if sid ≠ 0 then specs.find? (fun s => s.id == sid)
    else specs.find? (fun s => s.product_id == product_id && s.is_active)
  | none => specs.find? (fun s => s.product_id == product_id && s.is_active)

/-- Reference-image selection of process_generation (lines 167-177): the
query orders by is_primary DESC only (no tiebreaker; ties keep table
order) and the FIRST row is used.  display_order is never consulted. -/
def select_reference_image (ref_images : List ProductReferenceImage) :
    Option ProductReferenceImage :=
  (ref_images.filter (fun r => r.is_primary) ++
    ref_images.filter (fun r => !r.is_primary)).head?

/-- Replace the request row with the given id by `req` (a SQLAlchemy
field update on the loaded ORM object, made visible at commit). -/
def setRequest (db : DB) (rid : Nat) (req : GenerationRequest) : DB :=
  { db with gen_requests := db.gen_requests.map (fun r =>
      if r.id == rid then req else r) }

/-- The per-image loop of process_generation (lines 185-220), iterating
over the indices `todo` (range(image_count)): call the adapter; an
exception stops the loop and is reported as `some message`; otherwise,
`if image_data:` - non-empty bytes are saved to storage and recorded as a
pending GeneratedImage row with generation_index = i + 1, while EMPTY
bytes are silently skipped.  Returns (pending rows, next_id, storage,
error). -/
def generation_loop (call : Nat → Except String (List ResponsePart))
    (rid pid : Nat) (slug : String) :
    List Nat → Nat → Storage → List GeneratedImage →
    List GeneratedImage × Nat × Storage × Option String
  | [], next_id, st, acc => (acc, next_id, st, none)
  | i :: todo, next_id, st, acc =>
    match generate_single_image (call i) with
    | .error e => (acc, next_id, st, some e)
    | .ok image_data =>
      if image_data.isEmpty then
        generation_loop call rid pid slug todo next_id st acc
      else
        let saved := save_generated_image st slug image_data
        let gen_image : GeneratedImage :=
          { id := next_id, generation_request_id := rid, product_id := pid,
            filename := saved.1, storage_path := saved.2.1,
            file_size_bytes := image_data.length, mime_type := "image/png",
            generation_index := i + 1 }
        generation_loop call rid pid slug todo (next_id + 1) saved.2.2
          (acc ++ [gen_image])

/-- The except-branch of process_generation: set status "failed", the
error message and completed_at on the request and commit - the commit
also flushes the pending GeneratedImage rows added before the failure. -/
def failRequest (db : DB) (req : GenerationRequest) (msg : String)
    (now : Nat) (pending : List GeneratedImage) : DB :=
  let db1 := setRequest db req.id
    { req with status := .failed, error_message := some msg,
               completed_at := some now }
  { db1 with gen_images := db1.gen_images ++ pending }

/-- GenerationService.process_generation: mark the request processing,
resolve the specification (pinned id, or active one at this time), load
the product, pick the reference image (primary first), run the per-image
loop, then mark the request completed - any exception on the way is
caught and turns the request failed with the exception text.  `call i` is
the outcome of the i-th Gemini invocation (the real call also receives
the reference-image path, the YAML text, the effective prompt, the aspect
ratio and the resolution; those are constant across the loop and do not
affect the control flow modelled here).  YAML parsing of the stored
specification is modelled as total.  `now` is the clock tick for both
started_at and completed_at. -/
def process_generation (db : DB) (st : Storage) (rid : Nat) (now : Nat)
    (call : Nat → Except String (List ResponsePart)) : DB × Storage :=
  match db.gen_requests.find? (fun r => r.id == rid) with
  | none => (db, st)
  | some request =>
    let req1 := { request with status := .processing, started_at := some now }
    let db1 := setRequest db rid req1
    match resolve_specification db1.specs req1.specification_id req1.product_id with
    | none => (failRequest db1 req1 "No specification found for generation" now [], st)
    | some _spec =>
      match db1.products.find? (fun p => p.id == req1.product_id) with
      | none =>
        (failRequest db1 req1 "NoneType has no attribute id" now [], st)
      | some product =>
        let prod_refs := db1.ref_images.filter (fun r => r.product_id == product.id)
        match select_reference_image prod_refs with
        | none =>
          (failRequest db1 req1 "No reference images found for generation" now [], st)
        | some _primary_ref =>
          let result := generation_loop call req1.id product.id product.slug
            (List.range req1.image_count) db1.next_id st []
          match result.2.2.2 with
          | some e =>
            ({ failRequest db1 req1 e now result.1 with
                next_id := result.2.1 }, result.2.2.1)
          | none =>
            let req2 := { req1 with status := .completed, completed_at := some now }
            let db2 := setRequest db1 rid req2
            ({ db2 with gen_images := db2.gen_images ++ result.1,
                        next_id := result.2.1 }, result.2.2.1)

/-- Route GET /generation-requests/{request_id}: 404 when absent. -/
def get_generation_request (db : DB) (rid : Nat) :
    Except ApiError GenerationRequest :=
  match db.gen_requests.find? (fun r => r.id == rid) with
  | none => .error (.notFound "Generation request not found")
  | some r => .ok r

/-- Route DELETE /generation-requests/{request_id}: 404 when absent; when
status is pending or processing the route calls
generation_service.cancel_generation, a method that DOES NOT EXIST on
GenerationService, so an AttributeError escapes (HTTP 500) and nothing is
deleted; otherwise every GeneratedImage of the request has its file
best-effort deleted (skipped when storage_path is falsy) and its row
removed, and finally the request row is removed. -/
def delete_generation_request (db : DB) (st : Storage) (rid : Nat) :
    Except ApiError (DB × Storage) :=
  match db.gen_requests.find? (fun r => r.id == rid) with
  | none => .error (.notFound "Generation request not found")
  | some request =>
    if request.status == .pending || request.status == .processing then
      .error (.attributeError
        "GenerationService object has no attribute cancel_generation")
    else
      let images := db.gen_images.filter (fun g => g.generation_request_id == rid)
      let st1 := { st with files := images.foldl (fun fs g =>
        if g.storage_path ≠ "" then deleteFile fs g.storage_path else fs) st.files }
      .ok ({ db with
              gen_images := db.gen_images.filter
                (fun g => !(g.generation_request_id == rid)),
              gen_requests := db.gen_requests.filter (fun r => !(r.id == rid)) },
           st1)

/-! ## Concrete states used by counterexamples and witnesses -/

/-- A catalog product. -/
def exProduct : Product :=
  { id := 1, name := "Mug", slug := "mug", is_active := true }

/-- Database holding only the product. -/
def exDB0 : DB :=
  { products := [exProduct], specs := [], ref_images := [],
    gen_requests := [], gen_images := [], next_id := 2 }

/-- Empty storage. -/
def exSt0 : Storage := { files := [], counter := 0 }

/-- Create version 1, create version 2, then PUT an update against the id
of version 1 (spec id 2).  All three API operations succeed. -/
def specScenario : Option (DB × Storage) := do
  let r1 ← (create_specification exDB0 exSt0 1 "size: small" 7 none).toOption
  let r2 ← (create_specification r1.2.1 r1.2.2 1 "size: large" 7 none).toOption
  let r3 ← (update_specification r2.2.1 r2.2.2 2 "size: tiny" none).toOption
  pure (r3.2.1, r3.2.2)

/-- Upload three reference images (the first becomes primary with
display_order 0, then 1, then 2), delete the primary one, then move the
now-first image to display_order 5.  All operations succeed. -/
def refScenario : Option DB := do
  let u1 ← (upload_reference_image exDB0 exSt0 1 [1] "a.png"
    (some "image/png") (some (8, 8)) 7).toOption
  let u2 ← (upload_reference_image u1.2.1 u1.2.2 1 [2] "b.png"
    (some "image/png") (some (8, 8)) 7).toOption
  let u3 ← (upload_reference_image u2.2.1 u2.2.2 1 [3] "c.png"
    (some "image/png") (some (8, 8)) 7).toOption
  let d ← (delete_reference_image u3.2.1 u3.2.2 2).toOption
  let o ← (update_display_order d.1 3 5).toOption
  pure o.2

/-- An active specification of the product. -/
def exSpecActive : ProductSpecification :=
  { id := 2, product_id := 1, version := 1, yaml_content := "color: red",
    is_active := true, created_by := some 7, change_notes := none }

/-- A primary reference image of the product. -/
def exRefPrimary : ProductReferenceImage :=
  { id := 3, product_id := 1, filename := "a.png",
    storage_path := "mug/refs/ref_0.png", width := some 8, height := some 8,
    uploaded_by := some 7, is_primary := true, display_order := 0 }

/-- Database with two specification versions of the product: version 1
(id 2) inactive, version 2 (id 5) also stored inactive, as after edits
and a rollback; used to exercise activation. -/
def exDBTwoVersions : DB :=
  { exDB0 with specs := [exSpecActive,
      { exSpecActive with id := 5, version := 2, is_active := false }] }

/-- Database holding only version 1 of the product, active. -/
def exDBOneSpec : DB := { exDB0 with specs := [exSpecActive] }

/-- Storage holding the primary reference image's file. -/
def exStA : Storage :=
  { files := [("mug/refs/ref_0.png", [1, 2, 3])], counter := 1 }

/-- A pending generation request for one image against the active
specification. -/
def c3req : GenerationRequest :=
  { id := 4, product_id := 1, specification_id := none, prompt := "studio",
    custom_prompt_override := none, aspect := "1:1", resolution := "2K",
    image_count := 1, status := .pending, started_at := none,
    completed_at := none, error_message := none, created_by := 7 }

/-- Database ready for processing `c3req`: product, active specification,
primary reference image, the pending request. -/
def c3db : DB :=
  { products := [exProduct], specs := [exSpecActive],
    ref_images := [exRefPrimary], gen_requests := [c3req], gen_images := [],
    next_id := 5 }

/-- Run of `c3req` where the single Gemini call answers with commentary
text and no image part. -/
def c3run : DB × Storage :=
  process_generation c3db exStA 4 10 (fun _ => .ok [.text "cannot comply"])

/-- A pending generation request for two images. -/
def c4req : GenerationRequest := { c3req with image_count := 2 }

/-- Database ready for processing `c4req`. -/
def c4db : DB := { c3db with gen_requests := [c4req] }

/-- Run of `c4req` where the first Gemini call answers text only (no
image part) and the second raises. -/
def c4run : DB × Storage :=
  process_generation c4db exStA 4 10
    (fun i => if i == 0 then .ok [.text "no picture"] else .error "boom")

/-- A pending generation request pinned to specification_id 0, an id that
resolves to no existing specification. -/
def c5req : GenerationRequest := { c3req with specification_id := some 0 }

/-- Database ready for processing `c5req`. -/
def c5db : DB := { c3db with gen_requests := [c5req] }

/-- Run of `c5req` with a Gemini call that yields an image. -/
def c5run : DB × Storage :=
  process_generation c5db exStA 4 10 (fun _ => .ok [.image [9, 9]])

/-- Database with product, active specification and reference image but
no request yet. -/
def c10db : DB :=
  { products := [exProduct], specs := [exSpecActive],
    ref_images := [exRefPrimary], gen_requests := [], gen_images := [],
    next_id := 4 }

/-- A generated image belonging to request 5. -/
def c8img : GeneratedImage :=
  { id := 6, generation_request_id := 5, product_id := 1,
    filename := "gen_1.png", storage_path := "mug/generated/gen_1.png",
    file_size_bytes := 3, mime_type := "image/png", generation_index := 1 }

/-- A pending and a completed generation request, the latter with one
generated image, ready for the DELETE route. -/
def c8db : DB :=
  { products := [exProduct], specs := [exSpecActive],
    ref_images := [exRefPrimary],
    gen_requests := [c3req,
      { c3req with id := 5, status := .completed,
                   started_at := some 1, completed_at := some 2 }],
    gen_images := [c8img],
    next_id := 7 }

/-- Storage backing `c8db`. -/
def c8st : Storage :=
  { files := [("mug/refs/ref_0.png", [1, 2, 3]),
              ("mug/generated/gen_1.png", [9, 9, 9])], counter := 2 }

/-! ## Claim C1 - at most one active specification -/

/-- C1 counterexample: after create(v1), create(v2),
PUT /specifications/2 (an update of the INACTIVE version 1), the product
has TWO rows with is_active = true (the previously active version 2, ids
3, and the newly inserted row, id 4).  The claim that after any completed
create/activate/update operation at most one ProductSpecification of the
product is active is false on this update operation. -/
theorem two_active_specifications_after_update_of_inactive_version :
    ∃ db st, specScenario = some (db, st) ∧
      (activeSpecs db 1).map (fun s => s.id) = [3, 4] ∧
      ¬ (activeSpecs db 1).length ≤ 1 := by
  refine ⟨_, _, rfl, ?_, ?_⟩ <;> decide

/-! ## Claim C2 - gapless version numbering -/

/-- C2 counterexample: the same scenario assigns version
spec.version + 1 = 2 to the update of version 1 although version 2
already exists, so the product's version numbers become [1, 2, 2] -
duplicated, not gapless.  The claim that any sequence of create,
update-as-new-version and activate operations keeps the versions at
1..n is false. -/
theorem duplicate_version_after_update_of_old_version :
    ∃ db st, specScenario = some (db, st) ∧
      versionsOf db 1 = [1, 2, 2] ∧
      ¬ (versionsOf db 1).Nodup ∧
      ¬ gapless db 1 := by
  refine ⟨_, _, rfl, ?_, ?_, ?_⟩ <;> decide

/-! ## Claim C3 - completed requests and their image rows -/

/-- C3 counterexample: the request asks for image_count = 1, the single
Gemini call returns text with no image part, _generate_single_image hands
back zero-length bytes, the `if image_data:` guard silently skips the row,
and the request still ends with status completed - with ZERO GeneratedImage
rows instead of the claimed exactly 1 with index 1. -/
theorem completed_request_with_missing_image_row :
    ∃ req, (c3run.1.gen_requests.find? (fun r => r.id == 4)) = some req ∧
      req.image_count = 1 ∧
      req.status = .completed ∧
      c3run.1.gen_images.filter (fun g => g.generation_request_id == 4) = [] := by
  refine ⟨_, rfl, ?_, ?_, ?_⟩ <;> decide

/-! ## Claim C4 - failed requests keep the earlier rows -/

/-- C4 counterexample: image_count = 2; the first Gemini call succeeds but
returns no image part (zero-length bytes, no row is recorded), the second
call raises.  The request ends failed with error_message "boom" as claimed,
but with 0 persisted GeneratedImage rows instead of the claimed k-1 = 1:
"exactly k-1 persisted rows" does not hold when an earlier call returned
empty bytes. -/
theorem failed_request_row_count_mismatch :
    ∃ req, (c4run.1.gen_requests.find? (fun r => r.id == 4)) = some req ∧
      req.image_count = 2 ∧
      req.status = .failed ∧
      req.error_message = some "boom" ∧
      req.completed_at = some 10 ∧
      c4run.1.gen_images.filter (fun g => g.generation_request_id == 4) = [] := by
  refine ⟨_, rfl, ?_, ?_, ?_, ?_, ?_⟩ <;> decide

/-! ## Claim C5 - specification pinning -/

/-- C5 counterexample: the request was created with specification_id = 0,
a pinned id that resolves to no existing specification, so by the claim
the request must fail.  Because `if request.specification_id:` treats 0 as
falsy, processing instead falls back to the product's active specification
and the request COMPLETES. -/
theorem zero_specification_id_uses_active_specification :
    ∃ req, (c5run.1.gen_requests.find? (fun r => r.id == 4)) = some req ∧
      req.specification_id = some 0 ∧
      (∀ s ∈ c5db.specs, s.id ≠ 0) ∧
      req.status = .completed ∧
      req.status ≠ .failed := by
  refine ⟨_, rfl, ?_, ?_, ?_, ?_⟩ <;> decide

/-! ## Claim C6 - adapter response without an image part -/

/-- C6: a generation-adapter invocation whose model response contains no
image part does NOT fail: generate_image_from_specs merely logs a warning
("No image was generated in the response") and returns, leaving the
temporary output file empty, so _generate_single_image returns zero-length
bytes as a success - contradicting its own docstring, which promises that
APIError is raised when generation fails. -/
theorem no_image_response_returns_empty_success :
    ∀ t : String, generate_single_image (.ok [.text t]) = .ok ([] : Bytes) ∧
      (generate_image_from_specs [.text t] []).2 = false ∧
      ∀ e, generate_single_image (.ok [.text t]) ≠ .error e := by
  intro t
  refine ⟨rfl, rfl, ?_⟩
  intro e h
  simp [generate_single_image] at h

/-! ## Claim C7 - reference-image selection -/

/-- C7 counterexample: after the primary image is deleted and the orders
are edited, the product's images are id 3 (display_order 5) and id 4
(display_order 2), neither primary.  The claimed fallback would select id
4 (lowest display_order); the code orders by is_primary DESC only and
takes the first row in table order, selecting id 3. -/
theorem fallback_ignores_display_order :
    (refScenario.map (fun db =>
      ((db.ref_images.filter (fun r => r.product_id == 1)).map
          (fun r => (r.id, r.is_primary, r.display_order)),
        (select_reference_image
          (db.ref_images.filter (fun r => r.product_id == 1))).map
          (fun r => r.id))))
      = some ([(3, false, 5), (4, false, 2)], some 3) := by decide

/-! ## Claim C8 - deleting a generation request -/

/-- C8: the DELETE route calls generation_service.cancel_generation for a
pending or processing request, but GenerationService defines no such
method, so an AttributeError escapes (HTTP 500) and neither the request
nor its images are deleted; for a terminal request the deletion does work:
the images and the request row disappear, the backing file is removed, and
a subsequent fetch returns NotFound. -/
theorem delete_pending_request_raises_attribute_error :
    delete_generation_request c8db c8st 4 = .error (.attributeError
      "GenerationService object has no attribute cancel_generation") ∧
    (∃ db1 st1, delete_generation_request c8db c8st 5 = .ok (db1, st1) ∧
      get_generation_request db1 5
        = .error (.notFound "Generation request not found") ∧
      db1.gen_images.filter (fun g => g.generation_request_id == 5) = [] ∧
      getFile st1.files "mug/generated/gen_1.png" = none) := by
  refine ⟨rfl, _, _, rfl, ?_, ?_, ?_⟩ <;> decide

/-! ## Claim C9 - undecodable reference-image upload -/

/-- C9 counterexample: an upload whose bytes PIL cannot decode is NOT
tolerated: upload_reference_image raises HTTP 400 "Invalid image file"
instead of storing a row with null width/height. -/
theorem undecodable_upload_rejected :
    upload_reference_image exDB0 exSt0 1 [255] "bad.png" (some "image/png")
      none 7 = .error (.badRequest "Invalid image file") := by
  decide

/-! ## Claim C10 - no validation of specification_id at creation -/

/-- C10 counterexample: creation indeed performs no validation - a request
pinned to the dangling specification_id 0 is accepted in status pending -
but the dangling reference is NOT detected during processing: 0 is falsy,
so processing falls back to the active specification and the request ends
completed, not failed. -/
theorem dangling_zero_specification_id_not_detected :
    ∃ req db1, create_generation c10db 1 "studio" (some 0) "1:1" "2K" 1
        none 7 = .ok (req, db1) ∧
      req.status = .pending ∧
      req.specification_id = some 0 ∧
      (∀ s ∈ c10db.specs, s.id ≠ 0) ∧
      (∃ req', ((process_generation db1 exStA req.id 10
          (fun _ => .ok [.image [9, 9]])).1.gen_requests.find?
            (fun r => r.id == req.id)) = some req' ∧
        req'.status = .completed ∧ req'.status ≠ .failed) := by
  refine ⟨_, _, rfl, ?_, ?_, ?_, _, rfl, ?_, ?_⟩ <;> decide

/-! ## Supporting lemmas -/

/-- The head of a filtered list is the first element satisfying the
predicate. -/
theorem head?_filter_eq_find? {α : Type} (p : α → Bool) (l : List α) :
    (l.filter p).head? = l.find? p := by
  induction l with
  | nil => rfl
  | cons a t ih =>
    by_cases h : p a = true <;> simp [List.filter_cons, List.find?_cons, h, ih]

/-- Updating the row that find? locates makes find? return the new row. -/
theorem find?_update_of_found {l : List GenerationRequest} {rid : Nat}
    {req0 : GenerationRequest}
    (h0 : l.find? (fun r => r.id == rid) = some req0)
    (req' : GenerationRequest) (h : (req'.id == rid) = true) :
    (l.map (fun r => if r.id == rid then req' else r)).find?
      (fun r => r.id == rid) = some req' := by
  induction l with
  | nil => simp at h0
  | cons a t ih =>
    by_cases ha : a.id = rid
    · rw [List.map_cons, if_pos (by simpa using ha)]
      exact List.find?_cons_of_pos (p := fun (r : GenerationRequest) => r.id == rid) _ h
    · rw [List.map_cons, if_neg (by simpa using ha),
        List.find?_cons_of_neg (p := fun (r : GenerationRequest) => r.id == rid) _ (by simpa using ha)]
      rw [List.find?_cons_of_neg (p := fun (r : GenerationRequest) => r.id == rid) _
        (by simpa using ha)] at h0
      exact ih h0

/-- A request that resolve_specification cannot serve is failed by
process_generation with the ValueError text as its error message. -/
theorem process_unresolved_fails (db : DB) (st : Storage) (rid now : Nat)
    (call : Nat → Except String (List ResponsePart)) (req : GenerationRequest)
    (hfind : db.gen_requests.find? (fun r => r.id == rid) = some req)
    (hres : resolve_specification db.specs req.specification_id
      req.product_id = none) :
    ∃ req', (process_generation db st rid now call).1.gen_requests.find?
        (fun r => r.id == rid) = some req' ∧
      req'.status = .failed ∧
      req'.error_message = some "No specification found for generation" ∧
      req'.completed_at = some now ∧ req'.started_at = some now := by
  have hid := List.find?_some hfind
  have heq : req.id = rid := by simpa using hid
  subst heq
  have h1 := find?_update_of_found hfind
    { req with status := .processing, started_at := some now } (by simp)
  simp only [process_generation, hfind]
  simp only [setRequest] at h1 ⊢
  simp only [hres, failRequest, setRequest]
  exact ⟨_, find?_update_of_found h1 _ (by simp), rfl, rfl, rfl, rfl⟩

/-- C5 (amended): a non-zero pinned specification_id is looked up by id
alone and used when found; a non-zero pinned id that resolves to no row
yields no specification; a null specification_id resolves to the
product's currently active specification (the state at processing time);
and a request whose resolution yields nothing is failed with the
ValueError text as error message. -/
theorem specification_resolution_semantics :
    (∀ (specs : List ProductSpecification) (pid sid : Nat)
      (spec : ProductSpecification), sid ≠ 0 →
      specs.find? (fun s => s.id == sid) = some spec →
      resolve_specification specs (some sid) pid = some spec) ∧
    (∀ (specs : List ProductSpecification) (pid sid : Nat), sid ≠ 0 →
      specs.find? (fun s => s.id == sid) = none →
      resolve_specification specs (some sid) pid = none) ∧
    (∀ (specs : List ProductSpecification) (pid : Nat),
      resolve_specification specs none pid
        = specs.find? (fun s => s.product_id == pid && s.is_active)) ∧
    (∀ (db : DB) (st : Storage) (rid now : Nat)
      (call : Nat → Except String (List ResponsePart))
      (req : GenerationRequest),
      db.gen_requests.find? (fun r => r.id == rid) = some req →
      resolve_specification db.specs req.specification_id req.product_id
        = none →
      ∃ req', (process_generation db st rid now call).1.gen_requests.find?
          (fun r => r.id == rid) = some req' ∧
        req'.status = .failed ∧
        req'.error_message = some "No specification found for generation" ∧
        req'.completed_at = some now ∧ req'.started_at = some now) := by
  refine ⟨?_, ?_, ?_, ?_⟩
  · intro specs pid sid spec hsid hfind
    simp [resolve_specification, hsid, hfind]
  · intro specs pid sid hsid hfind
    simp [resolve_specification, hsid, hfind]
  · intro specs pid
    rfl
  · exact process_unresolved_fails

/-- Witness for specification_resolution_semantics: concrete pinned hit,
pinned miss, null fallback, and a processing run failed by an empty
specification table. -/
theorem specification_resolution_semantics_witness :
    (resolve_specification [exSpecActive] (some 2) 1 = some exSpecActive) ∧
    (resolve_specification [exSpecActive] (some 99) 1 = none) ∧
    (resolve_specification [exSpecActive] none 1
      = [exSpecActive].find? (fun s => s.product_id == 1 && s.is_active)) ∧
    (∃ req', ((process_generation { c3db with specs := [] } exStA 4 10
        (fun _ => .ok [.image [1]])).1.gen_requests.find?
          (fun r => r.id == 4)) = some req' ∧
      req'.status = .failed ∧
      req'.error_message = some "No specification found for generation" ∧
      req'.completed_at = some 10 ∧ req'.started_at = some 10) :=
  ⟨specification_resolution_semantics.1 [exSpecActive] 1 2 exSpecActive
      (by decide) (by decide),
    specification_resolution_semantics.2.1 [exSpecActive] 1 99
      (by decide) (by decide),
    specification_resolution_semantics.2.2.1 [exSpecActive] 1,
    specification_resolution_semantics.2.2.2 { c3db with specs := [] } exStA
      4 10 (fun _ => .ok [.image [1]]) c3req (by decide) (by decide)⟩

/-- C7 (amended): select_reference_image returns the first image marked
primary in table order when one exists, and otherwise the first image in
table order; display_order plays no role. -/
theorem reference_image_selection_semantics :
    (∀ (l : List ProductReferenceImage) (r : ProductReferenceImage),
      r ∈ l → r.is_primary = true →
      select_reference_image l = l.find? (fun x => x.is_primary)) ∧
    (∀ l : List ProductReferenceImage,
      (∀ r ∈ l, r.is_primary = false) →
      select_reference_image l = l.head?) := by
  constructor
  · intro l r hr hp
    unfold select_reference_image
    have hne : l.filter (fun x => x.is_primary) ≠ [] :=
      List.ne_nil_of_mem (List.mem_filter.mpr ⟨hr, hp⟩)
    obtain ⟨a, t, he⟩ := List.exists_cons_of_ne_nil hne
    rw [he, ← head?_filter_eq_find?, he]
    rfl
  · intro l hall
    unfold select_reference_image
    have h1 : l.filter (fun x => x.is_primary) = [] := by
      simp only [List.filter_eq_nil_iff]
      intro a ha
      simp [hall a ha]
    have h2 : l.filter (fun x => !x.is_primary) = l := by
      apply List.filter_eq_self.mpr
      intro a ha
      simp [hall a ha]
    rw [h1, h2]
    rfl

/-- Witness for reference_image_selection_semantics: a singleton primary
list and a singleton non-primary list. -/
theorem reference_image_selection_semantics_witness :
    (select_reference_image [exRefPrimary]
      = [exRefPrimary].find? (fun x => x.is_primary)) ∧
    (select_reference_image [{ exRefPrimary with is_primary := false }]
      = [{ exRefPrimary with is_primary := false }].head?) :=
  ⟨reference_image_selection_semantics.1 [exRefPrimary] exRefPrimary
      (by decide) (by decide),
    reference_image_selection_semantics.2
      [{ exRefPrimary with is_primary := false }] (by decide)⟩

/-- C9 (amended): when the product exists, fewer than 4 images are
present and the content type is an image type, an upload whose bytes
cannot be decoded is rejected with HTTP 400 "Invalid image file"; no row
and no file is created (the error return carries no new state). -/
theorem undecodable_upload_returns_invalid_image_error
    (db : DB) (st : Storage) (product_id : Nat) (content : Bytes)
    (filename : String) (ct : String) (uploaded_by : Nat) (product : Product)
    (hprod : db.products.find? (fun p => p.id == product_id) = some product)
    (hcount :
      (db.ref_images.filter (fun r => r.product_id == product_id)).length < 4)
    (hct : pyStartsWith ct "image/" = true) :
    upload_reference_image db st product_id content filename (some ct) none
      uploaded_by = .error (.badRequest "Invalid image file") := by
  simp [upload_reference_image, hprod, hct, Nat.not_le.mpr hcount]

/-- Witness for undecodable_upload_returns_invalid_image_error at a
concrete database. -/
theorem undecodable_upload_returns_invalid_image_error_witness :
    upload_reference_image exDB0 exSt0 1 [0, 1] "z.png" (some "image/jpeg")
      none 9 = .error (.badRequest "Invalid image file") :=
  undecodable_upload_returns_invalid_image_error exDB0 exSt0 1 [0, 1] "z.png"
    "image/jpeg" 9 exProduct (by decide) (by decide) (by decide)

/-- C10 (amended): request creation validates nothing about
specification_id - whenever the product exists, creation succeeds for
EVERY specification_id value and returns a pending record appended to the
table; a non-zero specification_id that resolves to no row is detected
only during processing, which fails the request with the ValueError
text. -/
theorem creation_skips_specification_validation :
    (∀ (db : DB) (product_id : Nat) (product : Product) (prompt : String)
      (sid : Option Nat) (a rs : String) (n : Nat) (o : Option String)
      (u : Nat),
      db.products.find? (fun p => p.id == product_id) = some product →
      ∃ req db1, create_generation db product_id prompt sid a rs n o u
          = .ok (req, db1) ∧
        req.status = .pending ∧ req.specification_id = sid ∧
        db1.gen_requests = db.gen_requests ++ [req]) ∧
    (∀ (db : DB) (st : Storage) (rid now : Nat)
      (call : Nat → Except String (List ResponsePart))
      (req : GenerationRequest) (sid : Nat),
      db.gen_requests.find? (fun r => r.id == rid) = some req →
      req.specification_id = some sid → sid ≠ 0 →
      db.specs.find? (fun s => s.id == sid) = none →
      ∃ req', (process_generation db st rid now call).1.gen_requests.find?
          (fun r => r.id == rid) = some req' ∧
        req'.status = .failed ∧
        req'.error_message = some "No specification found for generation") := by
  constructor
  · intro db product_id product prompt sid a rs n o u hprod
    have hc : create_generation db product_id prompt sid a rs n o u
        = .ok (create_generation_request db product_id prompt sid a rs n o u) := by
      unfold create_generation
      rw [hprod]
    exact ⟨_, _, hc, rfl, rfl, rfl⟩
  · intro db st rid now call req sid hfind hsid hnz hnone
    obtain ⟨req', h1, h2, h3, _, _⟩ :=
      process_unresolved_fails db st rid now call req hfind
        (by simp [resolve_specification, hsid, hnz, hnone])
    exact ⟨req', h1, h2, h3⟩

/-- Witness for creation_skips_specification_validation: creation against
the dangling specification_id 99 succeeds pending, and processing a
request pinned to 99 fails it. -/
theorem creation_skips_specification_validation_witness :
    (∃ req db1, create_generation c10db 1 "studio" (some 99) "1:1" "2K" 1
        none 7 = .ok (req, db1) ∧
      req.status = .pending ∧ req.specification_id = some 99 ∧
      db1.gen_requests = c10db.gen_requests ++ [req]) ∧
    (∃ req', ((process_generation
        { c3db with gen_requests := [{ c3req with specification_id := some 99 }] }
        exStA 4 10 (fun _ => .ok [.image [1]])).1.gen_requests.find?
          (fun r => r.id == 4)) = some req' ∧
      req'.status = .failed ∧
      req'.error_message = some "No specification found for generation") :=
  ⟨creation_skips_specification_validation.1 c10db 1 exProduct "studio"
      (some 99) "1:1" "2K" 1 none 7 (by decide),
    creation_skips_specification_validation.2
      { c3db with gen_requests := [{ c3req with specification_id := some 99 }] }
      exStA 4 10 (fun _ => .ok [.image [1]])
      { c3req with specification_id := some 99 } 99
      (by decide) rfl (by decide) (by decide)⟩

/-- Deactivating every specification of a product leaves it with no
active rows. -/
theorem filter_active_deactAll (l : List ProductSpecification) (pid : Nat) :
    (l.map (fun s =>
      if s.product_id == pid then { s with is_active := false } else s)).filter
      (fun s => s.product_id == pid && s.is_active) = [] := by
  rw [List.filter_eq_nil_iff]
  intro s hs
  obtain ⟨a, ha, rfl⟩ := List.mem_map.mp hs
  by_cases hp : a.product_id = pid <;> simp [hp]

/-- Deactivating only the row with the given id leaves a product with no
active rows, provided every active row had that id. -/
theorem filter_active_updateOne (l : List ProductSpecification)
    (sid pid : Nat) (hall : ∀ s ∈ l, s.is_active = true → s.id = sid) :
    (l.map (fun s =>
      if s.id == sid then { s with is_active := false } else s)).filter
      (fun s => s.product_id == pid && s.is_active) = [] := by
  rw [List.filter_eq_nil_iff]
  intro s hs
  obtain ⟨a, ha, rfl⟩ := List.mem_map.mp hs
  by_cases hid : a.id = sid
  · simp [hid]
  · have hact : a.is_active = false := by
      cases hact : a.is_active with
      | false => rfl
      | true => exact absurd (hall a ha hact) hid
    simp [hid, hact]

/-- Filtering a mapped list is mapping the list filtered by the composed
predicate. -/
theorem filter_of_map {α β : Type} (p : β → Bool) (f : α → β) (l : List α) :
    (l.map f).filter p = (l.filter (fun a => p (f a))).map f := by
  induction l with
  | nil => rfl
  | cons a t ih => by_cases h : p (f a) = true <;> simp [h, ih]

/-- With unique ids, the rows carrying the found id (and its product) are
exactly the found row. -/
theorem filter_unique_id (sid pid : Nat) :
    ∀ (l : List ProductSpecification) (spec0 : ProductSpecification),
    l.find? (fun s => s.id == sid) = some spec0 →
    (l.map (fun s => s.id)).Nodup →
    spec0.product_id = pid →
    l.filter (fun s => s.id == sid && s.product_id == pid) = [spec0] := by
  intro l
  induction l with
  | nil => intro spec0 hf _ _; simp at hf
  | cons a t ih =>
    intro spec0 hf hnd hpid
    by_cases hid : a.id = sid
    · rw [List.find?_cons_of_pos (p := fun (s : ProductSpecification) =>
        s.id == sid) _ (by simpa using hid)] at hf
      obtain rfl : a = spec0 := by injection hf
      have hno : ∀ s ∈ t, s.id ≠ sid := by
        intro s hs hcontra
        apply (List.nodup_cons.mp hnd).1
        show a.id ∈ t.map (fun s => s.id)
        rw [hid, ← hcontra]
        exact List.mem_map_of_mem (fun s => s.id) hs
      have htail : t.filter (fun s => s.id == sid && s.product_id == pid)
          = [] := by
        rw [List.filter_eq_nil_iff]
        intro s hs
        simp [hno s hs]
      rw [List.filter_cons, if_pos (by simp [hid, hpid])]
      simp [htail]
    · rw [List.find?_cons_of_neg (p := fun (s : ProductSpecification) =>
        s.id == sid) _ (by simpa using hid)] at hf
      rw [List.filter_cons, if_neg (by simp [hid])]
      exact ih spec0 hf (List.nodup_cons.mp hnd).2 hpid

/-- After deactivate-all followed by activate-one, the active rows of the
product are exactly the activated row, provided ids are unique. -/
theorem filter_active_activate (sid pid : Nat)
    (l : List ProductSpecification) (spec0 : ProductSpecification)
    (hf : l.find? (fun s => s.id == sid) = some spec0)
    (hnd : (l.map (fun s => s.id)).Nodup)
    (hpid : spec0.product_id = pid) :
    ((l.map (fun s =>
        if s.product_id == pid then { s with is_active := false } else s)).map
      (fun s => if s.id == sid then { s with is_active := true } else s)).filter
      (fun s => s.product_id == pid && s.is_active)
      = [{ spec0 with is_active := true }] := by
  have hsid : spec0.id = sid := by simpa using List.find?_some hf
  rw [List.map_map, filter_of_map,
    List.filter_congr (q := fun (s : ProductSpecification) =>
      s.id == sid && s.product_id == pid)
      (by
        intro s hs
        by_cases h1 : s.id = sid <;> by_cases h2 : s.product_id = pid
        · simp [h1, h2]
        · have hb2 : (s.product_id == pid) = false := by simp [h2]
          simp [h1, h2, hb2]
        · have hb1 : (s.id == sid) = false := by simp [h1]
          simp [h1, h2, hb1]
        · have hb1 : (s.id == sid) = false := by simp [h1]
          have hb2 : (s.product_id == pid) = false := by simp [h2]
          simp [h1, h2, hb1, hb2]),
    filter_unique_id sid pid l spec0 hf hnd hpid]
  simp [hpid, hsid]

/-- C1 (amended): create deactivates every other version and leaves
exactly the new row active; activate (with unique row ids) deactivates
every other version and leaves exactly the chosen row active; update
deactivates ONLY the row it is given, so it leaves exactly the new row
active only under the hypothesis that no other row of the product was
active. -/
theorem single_active_specification_invariant :
    (∀ (db : DB) (st : Storage) (pid : Nat) (y : String) (u : Nat)
      (notes : Option String) (spec : ProductSpecification) (db' : DB)
      (st' : Storage),
      create_specification db st pid y u notes = .ok (spec, db', st') →
      activeSpecs db' pid = [spec]) ∧
    (∀ (db : DB) (sid : Nat) (spec : ProductSpecification) (db' : DB),
      (db.specs.map (fun s => s.id)).Nodup →
      activate_specification db sid = .ok (spec, db') →
      activeSpecs db' spec.product_id = [spec]) ∧
    (∀ (db : DB) (st : Storage) (sid : Nat) (y : String)
      (notes : Option String) (spec' : ProductSpecification) (db' : DB)
      (st' : Storage),
      (∀ s ∈ db.specs, s.is_active = true → s.id = sid) →
      update_specification db st sid y notes = .ok (spec', db', st') →
      activeSpecs db' spec'.product_id = [spec']) := by
  refine ⟨?_, ?_, ?_⟩
  · intro db st pid y u notes spec db' st' h
    cases hp : db.products.find? (fun p => p.id == pid) with
    | none =>
      unfold create_specification at h
      rw [hp] at h
      simp at h
    | some product =>
      unfold create_specification at h
      rw [hp] at h
      simp only [Except.ok.injEq, Prod.mk.injEq] at h
      obtain ⟨h1, h2, h3⟩ := h
      subst h1 h2 h3
      unfold activeSpecs
      dsimp only
      rw [List.filter_append, filter_active_deactAll]
      simp
  · intro db sid spec db' hnd h
    cases hf : db.specs.find? (fun s => s.id == sid) with
    | none =>
      unfold activate_specification at h
      rw [hf] at h
      simp at h
    | some spec0 =>
      unfold activate_specification at h
      rw [hf] at h
      simp only [Except.ok.injEq, Prod.mk.injEq] at h
      obtain ⟨h1, h2⟩ := h
      subst h2
      unfold activeSpecs
      dsimp only
      rw [← h1]
      exact filter_active_activate sid spec0.product_id db.specs spec0 hf hnd rfl
  · intro db st sid y notes spec' db' st' hall h
    cases hf : db.specs.find? (fun s => s.id == sid) with
    | none =>
      unfold update_specification at h
      rw [hf] at h
      simp at h
    | some spec0 =>
      cases hp : db.products.find? (fun p => p.id == spec0.product_id) with
      | none =>
        simp only [update_specification, hf] at h
        simp only [hp] at h
        simp at h
      | some product =>
        simp only [update_specification, hf] at h
        simp only [hp, Except.ok.injEq, Prod.mk.injEq] at h
        obtain ⟨h1, h2, h3⟩ := h
        subst h1 h2 h3
        unfold activeSpecs
        dsimp only
        rw [List.filter_append, filter_active_updateOne db.specs sid
          spec0.product_id hall]
        simp

/-- Witness for single_active_specification_invariant: a concrete create,
a concrete activate of the older version, a concrete update of the
currently active version. -/
theorem single_active_specification_invariant_witness :
    (∃ spec db1 st1, create_specification exDB0 exSt0 1 "size: big" 7 none
        = .ok (spec, db1, st1) ∧ activeSpecs db1 1 = [spec]) ∧
    (∃ spec db1, activate_specification exDBTwoVersions 5
        = .ok (spec, db1) ∧ activeSpecs db1 spec.product_id = [spec]) ∧
    (∃ spec db1 st1, update_specification exDBOneSpec exSt0 2 "size: small"
        none
        = .ok (spec, db1, st1) ∧ activeSpecs db1 spec.product_id = [spec]) := by
  refine ⟨⟨_, _, _, rfl, ?_⟩, ⟨_, _, rfl, ?_⟩, ⟨_, _, _, rfl, ?_⟩⟩
  · exact single_active_specification_invariant.1 exDB0 exSt0 1 "size: big" 7
      none _ _ _ rfl
  · exact single_active_specification_invariant.2.1 exDBTwoVersions 5
      _ _ (by decide) rfl
  · exact single_active_specification_invariant.2.2 exDBOneSpec exSt0 2
      "size: small" none _ _ _ (by decide) rfl

/-- Folding max is invariant under permutation. -/
theorem foldr_max_perm {l1 l2 : List Nat} (p : List.Perm l1 l2) :
    l1.foldr Nat.max 0 = l2.foldr Nat.max 0 := by
  induction p with
  | nil => rfl
  | cons x _ ih => simp [List.foldr, ih]
  | swap x y l =>
    simp only [List.foldr]
    exact Nat.max_left_comm y x _
  | trans _ _ ih1 ih2 => exact ih1.trans ih2

/-- Folding max from an arbitrary seed. -/
theorem foldr_max_init (a : Nat) (l : List Nat) :
    l.foldr Nat.max a = Nat.max a (l.foldr Nat.max 0) := by
  induction l with
  | nil => simp
  | cons x t ih =>
    simp only [List.foldr, ih]
    exact Nat.max_left_comm x a _

/-- The largest element of 1..n is n. -/
theorem foldr_max_range_one : ∀ n : Nat,
    (List.range' 1 n).foldr Nat.max 0 = n := by
  intro n
  induction n with
  | zero => rfl
  | succ k ih =>
    have hr : List.range' 1 (k + 1) = List.range' 1 k ++ [1 + 1 * k] :=
      List.range'_concat 1 k
    rw [hr, List.foldr_append]
    simp only [List.foldr]
    rw [foldr_max_init, ih]
    simp only [Nat.max_def]
    split <;> split <;> omega

/-- A map that renames neither product nor version keeps the per-product
version list. -/
theorem listVersions_map_keep (l : List ProductSpecification) (pid : Nat)
    (f : ProductSpecification → ProductSpecification)
    (hf : ∀ s, (f s).product_id = s.product_id ∧ (f s).version = s.version) :
    listVersions (l.map f) pid = listVersions l pid := by
  unfold listVersions
  rw [filter_of_map, List.map_map,
    List.filter_congr (q := fun (s : ProductSpecification) =>
      s.product_id == pid) (fun s _ => by rw [(hf s).1])]
  exact List.map_congr_left (fun s _ => (hf s).2)

/-- Version lists distribute over append. -/
theorem listVersions_append (l1 l2 : List ProductSpecification) (pid : Nat) :
    listVersions (l1 ++ l2) pid = listVersions l1 pid ++ listVersions l2 pid := by
  simp [listVersions, List.filter_append]

/-- Appending the next version keeps a version list gapless. -/
theorem gapless_snoc {vs : List Nat}
    (hg : List.Perm vs (List.range' 1 vs.length)) :
    List.Perm (vs ++ [vs.length + 1])
      (List.range' 1 (vs ++ [vs.length + 1]).length) := by
  have e : (vs ++ [vs.length + 1]).length = vs.length + 1 := by simp
  rw [e]
  have hr : List.range' 1 (vs.length + 1)
      = List.range' 1 vs.length ++ [1 + 1 * vs.length] :=
    List.range'_concat 1 vs.length
  rw [hr]
  refine List.Perm.append hg ?_
  have e2 : 1 + 1 * vs.length = vs.length + 1 := by omega
  rw [e2]

/-- versionsOf unfolds to listVersions on the specs table. -/
theorem versionsOf_def (db : DB) (pid : Nat) :
    versionsOf db pid = listVersions db.specs pid := rfl

/-- The version list of a singleton row of the product. -/
theorem listVersions_single (s : ProductSpecification) (pid : Nat)
    (h : (s.product_id == pid) = true) : listVersions [s] pid = [s.version] := by
  simp [listVersions, List.filter_cons, h]

/-- C2 (amended): create_specification assigns max+1 and analyze_product
assigns count+1, both preserving the gapless 1..n version sequence;
activate_specification never creates rows or changes any column other
than the active flag; update_specification assigns (given row's
version)+1, which preserves the sequence when the given row holds the
latest version. -/
theorem version_numbering_invariant :
    (∀ (db : DB) (st : Storage) (pid : Nat) (y : String) (u : Nat)
      (notes : Option String) (spec : ProductSpecification) (db' : DB)
      (st' : Storage),
      create_specification db st pid y u notes = .ok (spec, db', st') →
      gapless db pid →
      gapless db' pid ∧ spec.version = (versionsOf db pid).length + 1) ∧
    (∀ (db : DB) (st : Storage) (pid : Nat) (y : String)
      (spec : ProductSpecification) (db' : DB) (st' : Storage),
      analyze_product db st pid y = .ok (spec, db', st') →
      gapless db pid →
      gapless db' pid ∧ spec.version = (versionsOf db pid).length + 1) ∧
    (∀ (db : DB) (sid : Nat) (spec : ProductSpecification) (db' : DB),
      activate_specification db sid = .ok (spec, db') →
      db'.specs.map (fun s => (s.id, s.product_id, s.version, s.yaml_content))
        = db.specs.map (fun s => (s.id, s.product_id, s.version, s.yaml_content))
      ∧ ∀ pid, versionsOf db' pid = versionsOf db pid) ∧
    (∀ (db : DB) (st : Storage) (sid : Nat) (y : String)
      (notes : Option String) (spec0 spec' : ProductSpecification) (db' : DB)
      (st' : Storage),
      db.specs.find? (fun s => s.id == sid) = some spec0 →
      update_specification db st sid y notes = .ok (spec', db', st') →
      gapless db spec0.product_id →
      spec0.version = (versionsOf db spec0.product_id).length →
      gapless db' spec0.product_id) := by
  refine ⟨?_, ?_, ?_, ?_⟩
  · intro db st pid y u notes spec db' st' h hg
    cases hp : db.products.find? (fun p => p.id == pid) with
    | none =>
      unfold create_specification at h
      rw [hp] at h
      simp at h
    | some product =>
      unfold create_specification at h
      rw [hp] at h
      simp only [Except.ok.injEq, Prod.mk.injEq] at h
      obtain ⟨h1, h2, h3⟩ := h
      subst h1 h3
      have hmax : ((specsOf db pid).map (fun s => s.version)).foldr Nat.max 0
          = (versionsOf db pid).length := by
        rw [show ((specsOf db pid).map (fun s => s.version))
          = versionsOf db pid from rfl, foldr_max_perm hg, foldr_max_range_one]
      have hv : versionsOf db' pid = versionsOf db pid
          ++ [(versionsOf db pid).length + 1] := by
        rw [← h2, versionsOf_def]
        dsimp only
        rw [listVersions_append,
          listVersions_map_keep db.specs pid _
            (fun s => by by_cases hq : s.product_id = pid <;> simp [hq]),
          listVersions_single _ _ (by simp), hmax, ← versionsOf_def]
      refine ⟨?_, ?_⟩
      · unfold gapless
        rw [hv]
        exact gapless_snoc hg
      · show ((specsOf db pid).map (fun s => s.version)).foldr Nat.max 0 + 1 = _
        rw [hmax]
  · intro db st pid y spec db' st' h hg
    cases hp : db.products.find? (fun p => p.id == pid) with
    | none =>
      unfold analyze_product at h
      rw [hp] at h
      simp at h
    | some product =>
      simp only [analyze_product, hp] at h
      by_cases hri : (db.ref_images.filter
          (fun r => r.product_id == pid)).isEmpty = true
      · rw [if_pos hri] at h
        simp at h
      · rw [if_neg hri] at h
        simp only [Except.ok.injEq, Prod.mk.injEq] at h
        obtain ⟨h1, h2, h3⟩ := h
        subst h1 h3
        have hlen : (specsOf db pid).length = (versionsOf db pid).length := by
          rw [versionsOf_def, listVersions]
          simp [specsOf]
        have hv : versionsOf db' pid = versionsOf db pid
            ++ [(versionsOf db pid).length + 1] := by
          rw [← h2, versionsOf_def]
          dsimp only
          rw [listVersions_append,
            listVersions_map_keep db.specs pid _
              (fun s => by
                by_cases hq : (s.product_id == pid && s.is_active) = true <;>
                  simp [hq]),
            listVersions_single _ _ (by simp), hlen, ← versionsOf_def]
        refine ⟨?_, ?_⟩
        · unfold gapless
          rw [hv]
          exact gapless_snoc hg
        · show (specsOf db pid).length + 1 = _
          rw [hlen]
  · intro db sid spec db' h
    cases hf : db.specs.find? (fun s => s.id == sid) with
    | none =>
      unfold activate_specification at h
      rw [hf] at h
      simp at h
    | some spec0 =>
      unfold activate_specification at h
      rw [hf] at h
      simp only [Except.ok.injEq, Prod.mk.injEq] at h
      obtain ⟨h1, h2⟩ := h
      refine ⟨?_, ?_⟩
      · rw [← h2]
        dsimp only
        rw [List.map_map, List.map_map]
        exact List.map_congr_left (fun s _ => by
          by_cases hq1 : s.product_id = spec0.product_id <;>
            by_cases hq2 : s.id = sid <;> simp [hq1, hq2])
      · intro pid
        rw [← h2, versionsOf_def, versionsOf_def]
        dsimp only
        rw [List.map_map]
        exact listVersions_map_keep db.specs pid _
          (fun s => by
            by_cases hq1 : s.product_id = spec0.product_id <;>
              by_cases hq2 : s.id = sid <;> simp [hq1, hq2])
  · intro db st sid y notes spec0 spec' db' st' hf h hg hlatest
    simp only [update_specification, hf] at h
    cases hp : db.products.find? (fun p => p.id == spec0.product_id) with
    | none =>
      simp only [hp] at h
      simp at h
    | some product =>
      simp only [hp, Except.ok.injEq, Prod.mk.injEq] at h
      obtain ⟨h1, h2, h3⟩ := h
      subst h1 h3
      have hv : versionsOf db' spec0.product_id
          = versionsOf db spec0.product_id
            ++ [(versionsOf db spec0.product_id).length + 1] := by
        rw [← h2, versionsOf_def]
        dsimp only
        rw [listVersions_append,
          listVersions_map_keep db.specs spec0.product_id _
            (fun s => by by_cases hq : s.id = sid <;> simp [hq]),
          listVersions_single _ _ (by simp), ← hlatest, ← versionsOf_def]
      unfold gapless
      rw [hv]
      exact gapless_snoc hg

/-- Witness for version_numbering_invariant: a concrete create on an
empty history, a concrete analysis, a concrete activation, and a concrete
update of the latest version. -/
theorem version_numbering_invariant_witness :
    (∃ spec db1 st1, create_specification exDB0 exSt0 1 "a: 1" 7 none
        = .ok (spec, db1, st1) ∧ gapless db1 1 ∧
        spec.version = (versionsOf exDB0 1).length + 1) ∧
    (∃ spec db1 st1, analyze_product
        { exDB0 with ref_images := [exRefPrimary] } exSt0 1 "b: 2"
        = .ok (spec, db1, st1) ∧ gapless db1 1 ∧
        spec.version
          = (versionsOf { exDB0 with ref_images := [exRefPrimary] } 1).length
            + 1) ∧
    (∃ spec db1, activate_specification exDBTwoVersions 5
        = .ok (spec, db1) ∧
      db1.specs.map (fun s => (s.id, s.product_id, s.version, s.yaml_content))
        = exDBTwoVersions.specs.map
          (fun s => (s.id, s.product_id, s.version, s.yaml_content))
      ∧ ∀ pid, versionsOf db1 pid = versionsOf exDBTwoVersions pid) ∧
    (∃ spec db1 st1, update_specification exDBOneSpec exSt0 2 "c: 3" none
        = .ok (spec, db1, st1) ∧ gapless db1 exSpecActive.product_id) := by
  refine ⟨⟨_, _, _, rfl, ?_⟩, ⟨_, _, _, rfl, ?_⟩, ⟨_, _, rfl, ?_⟩,
    ⟨_, _, _, rfl, ?_⟩⟩
  · exact version_numbering_invariant.1 exDB0 exSt0 1 "a: 1" 7 none _ _ _ rfl
      (by decide)
  · exact version_numbering_invariant.2.1
      { exDB0 with ref_images := [exRefPrimary] } exSt0 1 "b: 2" _ _ _ rfl
      (by decide)
  · exact version_numbering_invariant.2.2.1 exDBTwoVersions 5 _ _ rfl
  · exact version_numbering_invariant.2.2.2 exDBOneSpec exSt0 2 "c: 3" none
      exSpecActive _ _ _ (by decide) rfl (by decide) (by decide)

/-- Lookup on a cons cell. -/
theorem getFile_cons (x : String × Bytes) (t : List (String × Bytes))
    (q : String) :
    getFile (x :: t) q = if x.fst == q then some x.snd else getFile t q := by
  unfold getFile
  by_cases h : x.fst = q
  · rw [List.find?_cons_of_pos (p := fun (e : String × Bytes) => e.fst == q) _
      (by simpa using h), if_pos (by simpa using h)]
    rfl
  · rw [List.find?_cons_of_neg (p := fun (e : String × Bytes) => e.fst == q) _
      (by simpa using h), if_neg (by simpa using h)]

/-- Overwriting the entries for one path does not change lookups of other
paths. -/
theorem getFile_map_overwrite (fs : List (String × Bytes)) (p q : String)
    (b : Bytes) (hq : q ≠ p) :
    getFile (fs.map (fun e => if e.fst == p then (p, b) else e)) q
      = getFile fs q := by
  induction fs with
  | nil => rfl
  | cons e t ih =>
    rw [List.map_cons, getFile_cons, getFile_cons, ih]
    by_cases he : e.fst = p
    · rw [if_pos (c := (e.fst == p) = true) (by simpa using he),
        if_neg (c := ((p, b).fst == q) = true) (by simp [Ne.symm hq]),
        if_neg (c := (e.fst == q) = true) (by simp [he, Ne.symm hq])]
    · rw [if_neg (c := (e.fst == p) = true) (by simpa using he)]

/-- Appending an entry for one path does not change lookups of other
paths. -/
theorem getFile_append_other (fs : List (String × Bytes)) (p q : String)
    (b : Bytes) (hq : q ≠ p) :
    getFile (fs ++ [(p, b)]) q = getFile fs q := by
  induction fs with
  | nil =>
    rw [List.nil_append, getFile_cons,
      if_neg (c := ((p, b).fst == q) = true) (by simp [Ne.symm hq])]
  | cons e t ih =>
    rw [List.cons_append, getFile_cons, getFile_cons, ih]

/-- Writing one path leaves every other path's content unchanged. -/
theorem getFile_setFile_other (fs : List (String × Bytes)) (p q : String)
    (b : Bytes) (hq : q ≠ p) :
    getFile (setFile fs p b) q = getFile fs q := by
  unfold setFile
  by_cases hany : fs.any (fun e => e.fst == p) = true
  · rw [if_pos hany]
    exact getFile_map_overwrite fs p q b hq
  · rw [if_neg hany]
    exact getFile_append_other fs p q b hq

/-- Writing a path makes it resolve to the written content. -/
theorem getFile_set_self (fs : List (String × Bytes)) (p : String)
    (b : Bytes) : getFile (setFile fs p b) p = some b := by
  induction fs with
  | nil =>
    show getFile [(p, b)] p = some b
    rw [getFile_cons, if_pos (by simp)]
  | cons e t ih =>
    unfold setFile at ih ⊢
    by_cases hany : (e :: t).any (fun e => e.fst == p) = true
    · rw [if_pos hany, List.map_cons, getFile_cons]
      by_cases he : e.fst = p
      · rw [if_pos (c := (e.fst == p) = true) (by simpa using he),
          if_pos (c := ((p, b).fst == p) = true) (by simp)]
      · rw [if_neg (c := (e.fst == p) = true) (by simpa using he),
          if_neg (c := (e.fst == p) = true) (by simp [he])]
        have hat : t.any (fun e => e.fst == p) = true := by
          simpa [List.any_cons, he] using hany
        rw [if_pos hat] at ih
        exact ih
    · rw [if_neg hany]
      have hef : ¬ e.fst = p := fun hc => hany (by simp [List.any_cons, hc])
      have hat : ¬ t.any (fun e => e.fst == p) = true := fun hc =>
        hany (by simp [List.any_cons, hc])
      rw [List.cons_append, getFile_cons, if_neg (by simp [hef])]
      rw [if_neg hat] at ih
      exact ih

/-- A stored, non-empty file stays stored and non-empty across a write of
non-empty content (it is either untouched or overwritten by the new
non-empty bytes). -/
theorem getFile_after_set (fs : List (String × Bytes)) (p q : String)
    (b : Bytes) (hb : b ≠ [])
    (h : ∃ c, getFile fs q = some c ∧ c ≠ []) :
    ∃ c, getFile (setFile fs p b) q = some c ∧ c ≠ [] := by
  by_cases hq : q = p
  · subst hq
    exact ⟨b, getFile_set_self fs q b, hb⟩
  · obtain ⟨c, hc, hcne⟩ := h
    exact ⟨c, (getFile_setFile_other fs p q b hq).trans hc, hcne⟩

/-- Shifting a range by one. -/
theorem map_add_one_range' : ∀ (s n : Nat),
    (List.range' s n).map (fun j => j + 1) = List.range' (s + 1) n := by
  intro s n
  induction n generalizing s with
  | zero => simp
  | succ k ih => simp [List.range'_succ, ih]

/-- A non-empty image list always yields a selected reference image. -/
theorem select_reference_image_of_ne_nil (l : List ProductReferenceImage)
    (h : l ≠ []) : ∃ r, select_reference_image l = some r := by
  unfold select_reference_image
  cases hmeq : l.filter (fun r => r.is_primary)
      ++ l.filter (fun r => !r.is_primary) with
  | nil =>
    exfalso
    obtain ⟨a, ha⟩ := List.exists_mem_of_ne_nil l h
    obtain ⟨h1, h2⟩ := List.append_eq_nil.mp hmeq
    have e1 := List.filter_eq_nil_iff.mp h1 a ha
    have e2 := List.filter_eq_nil_iff.mp h2 a ha
    cases hp : a.is_primary <;> simp [hp] at e1 e2
  | cons r t => exact ⟨r, rfl⟩

/-- Image rows all carrying the request id survive the per-request
filter. -/
theorem filter_keep_rid (imgs : List GeneratedImage) (rid : Nat)
    (h : ∀ g ∈ imgs, g.generation_request_id = rid) :
    imgs.filter (fun g => g.generation_request_id == rid) = imgs := by
  apply List.filter_eq_self.mpr
  intro g hg
  simp [h g hg]

/-- Running the per-image loop over indices that all yield non-empty
bytes: every index appends one row, in order, with its storage content
non-empty and all previously accumulated contents preserved. -/
theorem generation_loop_ok (call : Nat → Except String (List ResponsePart))
    (rid pid : Nat) (slug : String) :
    ∀ (n i next_id : Nat) (st : Storage) (acc : List GeneratedImage),
    (∀ j, j < n → ∃ b, generate_single_image (call (i + j)) = .ok b ∧ b ≠ []) →
    (∀ g ∈ acc, ∃ c, getFile st.files g.storage_path = some c ∧ c ≠ []) →
    ∃ imgs nid' st',
      generation_loop call rid pid slug (List.range' i n) next_id st acc
        = (acc ++ imgs, nid', st', none) ∧
      imgs.map (fun g => g.generation_index)
        = (List.range' i n).map (fun j => j + 1) ∧
      (∀ g ∈ imgs, g.generation_request_id = rid) ∧
      (∀ g ∈ acc ++ imgs,
        ∃ c, getFile st'.files g.storage_path = some c ∧ c ≠ []) := by
  intro n
  induction n with
  | zero =>
    intro i next_id st acc hcall hacc
    refine ⟨[], next_id, st, ?_, by simp, by simp, by simpa using hacc⟩
    simp [generation_loop]
  | succ k ih =>
    intro i next_id st acc hcall hacc
    obtain ⟨b, hb, hbne⟩ := hcall 0 (Nat.succ_pos k)
    rw [Nat.add_zero] at hb
    have hbe : b.isEmpty = false := by
      cases b with
      | nil => exact absurd rfl hbne
      | cons x xs => rfl
    have hcall2 : ∀ j, j < k →
        ∃ c, generate_single_image (call (i + 1 + j)) = .ok c ∧ c ≠ [] := by
      intro j hj
      have h2 := hcall (j + 1) (by omega)
      rwa [show i + (j + 1) = i + 1 + j by omega] at h2
    have hacc2 : ∀ g ∈ acc ++ [(⟨next_id, rid, pid,
        (save_generated_image st slug b).1,
        (save_generated_image st slug b).2.1, b.length, "image/png", i + 1⟩ :
          GeneratedImage)],
        ∃ c, getFile (save_generated_image st slug b).2.2.files
          g.storage_path = some c ∧ c ≠ [] := by
      intro g hg
      rcases List.mem_append.mp hg with hmem | hmem
      · exact getFile_after_set st.files _ g.storage_path b hbne (hacc g hmem)
      · have hge := List.mem_singleton.mp hmem
        subst hge
        exact ⟨b, getFile_set_self st.files _ b, hbne⟩
    obtain ⟨imgs', nid', st', heq, hidx, hrid, hfiles⟩ :=
      ih (i + 1) (next_id + 1) (save_generated_image st slug b).2.2
        (acc ++ [⟨next_id, rid, pid, (save_generated_image st slug b).1,
          (save_generated_image st slug b).2.1, b.length, "image/png",
          i + 1⟩]) hcall2 hacc2
    refine ⟨(⟨next_id, rid, pid, (save_generated_image st slug b).1,
      (save_generated_image st slug b).2.1, b.length, "image/png", i + 1⟩ :
        GeneratedImage) :: imgs', nid', st', ?_, ?_, ?_, ?_⟩
    · rw [List.range'_succ]
      simp only [generation_loop, hb, hbe]
      rw [heq]
      simp
    · rw [List.range'_succ, List.map_cons, List.map_cons, hidx]
    · intro g hg
      rcases List.mem_cons.mp hg with hge | hge
      · subst hge
        rfl
      · exact hrid g hge
    · intro g hg
      rw [List.append_cons] at hg
      exact hfiles g hg

/-- Running the per-image loop when the first m indices yield non-empty
bytes and index m raises: the loop stops with the error, having appended
exactly the m earlier rows in order. -/
theorem generation_loop_err (call : Nat → Except String (List ResponsePart))
    (rid pid : Nat) (slug : String) (e : String) :
    ∀ (m i next_id : Nat) (st : Storage) (acc : List GeneratedImage) (n : Nat),
    (∀ j, j < m → ∃ b, generate_single_image (call (i + j)) = .ok b ∧ b ≠ []) →
    generate_single_image (call (i + m)) = .error e →
    m < n →
    ∃ imgs nid' st',
      generation_loop call rid pid slug (List.range' i n) next_id st acc
        = (acc ++ imgs, nid', st', some e) ∧
      imgs.map (fun g => g.generation_index)
        = (List.range' i m).map (fun j => j + 1) ∧
      (∀ g ∈ imgs, g.generation_request_id = rid) := by
  intro m
  induction m with
  | zero =>
    intro i next_id st acc n hcall herr hn
    rw [Nat.add_zero] at herr
    obtain ⟨n2, rfl⟩ : ∃ n2, n = n2 + 1 := ⟨n - 1, by omega⟩
    refine ⟨[], next_id, st, ?_, by simp, by simp⟩
    rw [List.range'_succ]
    simp [generation_loop, herr]
  | succ k ih =>
    intro i next_id st acc n hcall herr hn
    obtain ⟨b, hb, hbne⟩ := hcall 0 (Nat.succ_pos k)
    rw [Nat.add_zero] at hb
    have hbe : b.isEmpty = false := by
      cases b with
      | nil => exact absurd rfl hbne
      | cons x xs => rfl
    have hcall2 : ∀ j, j < k →
        ∃ c, generate_single_image (call (i + 1 + j)) = .ok c ∧ c ≠ [] := by
      intro j hj
      have h2 := hcall (j + 1) (by omega)
      rwa [show i + (j + 1) = i + 1 + j by omega] at h2
    have herr2 : generate_single_image (call (i + 1 + k)) = .error e := by
      rwa [show i + (k + 1) = i + 1 + k by omega] at herr
    obtain ⟨n2, rfl⟩ : ∃ n2, n = n2 + 1 := ⟨n - 1, by omega⟩
    obtain ⟨imgs', nid', st', heq, hidx, hrid⟩ :=
      ih (i + 1) (next_id + 1) (save_generated_image st slug b).2.2
        (acc ++ [⟨next_id, rid, pid, (save_generated_image st slug b).1,
          (save_generated_image st slug b).2.1, b.length, "image/png",
          i + 1⟩]) n2 hcall2 herr2 (by omega)
    refine ⟨(⟨next_id, rid, pid, (save_generated_image st slug b).1,
      (save_generated_image st slug b).2.1, b.length, "image/png", i + 1⟩ :
        GeneratedImage) :: imgs', nid', st', ?_, ?_, ?_⟩
    · rw [List.range'_succ]
      simp only [generation_loop, hb, hbe]
      rw [heq]
      simp
    · rw [List.range'_succ, List.map_cons, List.map_cons, hidx]
    · intro g hg
      rcases List.mem_cons.mp hg with hge | hge
      · subst hge
        rfl
      · exact hrid g hge

/-- C3 (amended): when every adapter call of the request returns
non-empty image bytes, processing completes the request with exactly
image_count GeneratedImage rows, generation_index 1..image_count in
order, each resolving in storage to non-empty content.  (When a call
returns empty bytes its row is silently skipped and the request still
completes - the original claim fails there, see the counterexample.) -/
theorem completed_request_has_all_images
    (db : DB) (st : Storage) (rid now : Nat)
    (call : Nat → Except String (List ResponsePart)) (req : GenerationRequest)
    (spec : ProductSpecification) (product : Product)
    (hfind : db.gen_requests.find? (fun r => r.id == rid) = some req)
    (hres : resolve_specification db.specs req.specification_id
      req.product_id = some spec)
    (hprod : db.products.find? (fun p => p.id == req.product_id) = some product)
    (href : db.ref_images.filter (fun r => r.product_id == product.id) ≠ [])
    (hold : db.gen_images.filter (fun g => g.generation_request_id == rid) = [])
    (hcall : ∀ j, j < req.image_count →
      ∃ b, generate_single_image (call j) = .ok b ∧ b ≠ []) :
    ∃ req',
      (process_generation db st rid now call).1.gen_requests.find?
        (fun r => r.id == rid) = some req' ∧
      req'.status = .completed ∧ req'.completed_at = some now ∧
      req'.started_at = some now ∧
      ((process_generation db st rid now call).1.gen_images.filter
          (fun g => g.generation_request_id == rid)).map
          (fun g => g.generation_index)
        = List.range' 1 req.image_count ∧
      ((process_generation db st rid now call).1.gen_images.filter
          (fun g => g.generation_request_id == rid)).length
        = req.image_count ∧
      (∀ g ∈ (process_generation db st rid now call).1.gen_images.filter
          (fun g => g.generation_request_id == rid),
        ∃ c, getFile (process_generation db st rid now call).2.files
          g.storage_path = some c ∧ c ≠ []) := by
  have heqid : req.id = rid := by simpa using List.find?_some hfind
  subst heqid
  have hcall0 : ∀ j, j < req.image_count →
      ∃ b, generate_single_image (call (0 + j)) = .ok b ∧ b ≠ [] := by
    intro j hj
    simpa [Nat.zero_add] using hcall j hj
  obtain ⟨imgs, nid', st', heqloop, hidx, hrid, hfiles⟩ :=
    generation_loop_ok call req.id product.id product.slug req.image_count 0
      db.next_id st [] hcall0 (by simp)
  obtain ⟨r0, hsel⟩ := select_reference_image_of_ne_nil _ href
  have hidx1 : imgs.map (fun g => g.generation_index)
      = List.range' 1 req.image_count := by
    rw [hidx, map_add_one_range']
  have h1 := find?_update_of_found hfind
    { req with status := .processing, started_at := some now } (by simp)
  simp only [process_generation, hfind, setRequest]
  simp only [hres, hprod, hsel]
  rw [List.range_eq_range']
  simp only [heqloop]
  refine ⟨_, find?_update_of_found h1 _ (by simp), rfl, rfl, rfl, ?_, ?_, ?_⟩
  · simp only [List.filter_append, hold, List.nil_append,
      filter_keep_rid imgs req.id hrid]
    exact hidx1
  · simp only [List.filter_append, hold, List.nil_append,
      filter_keep_rid imgs req.id hrid]
    have := congrArg List.length hidx1
    simpa using this
  · intro g hg
    simp only [List.filter_append, hold, List.nil_append,
      filter_keep_rid imgs req.id hrid] at hg
    exact hfiles g (by simpa using hg)

/-- C4 (amended): when the first k adapter calls return non-empty bytes
and call k+1 raises, the request ends failed with the exception text as
error_message and a completed_at stamp, and exactly the k earlier rows
are persisted (generation_index 1..k, in order) - the failure handler's
commit flushes them, never rolls them back.  (A call returning empty
bytes yields no row without raising, so the persisted count can be lower
- see the counterexample.) -/
theorem failed_request_keeps_prior_images
    (db : DB) (st : Storage) (rid now : Nat)
    (call : Nat → Except String (List ResponsePart)) (req : GenerationRequest)
    (spec : ProductSpecification) (product : Product) (k : Nat) (e : String)
    (hfind : db.gen_requests.find? (fun r => r.id == rid) = some req)
    (hres : resolve_specification db.specs req.specification_id
      req.product_id = some spec)
    (hprod : db.products.find? (fun p => p.id == req.product_id) = some product)
    (href : db.ref_images.filter (fun r => r.product_id == product.id) ≠ [])
    (hold : db.gen_images.filter (fun g => g.generation_request_id == rid) = [])
    (hk : k < req.image_count)
    (hcall : ∀ j, j < k → ∃ b, generate_single_image (call j) = .ok b ∧ b ≠ [])
    (herr : generate_single_image (call k) = .error e) :
    ∃ req',
      (process_generation db st rid now call).1.gen_requests.find?
        (fun r => r.id == rid) = some req' ∧
      req'.status = .failed ∧ req'.error_message = some e ∧
      req'.completed_at = some now ∧
      ((process_generation db st rid now call).1.gen_images.filter
          (fun g => g.generation_request_id == rid)).map
          (fun g => g.generation_index)
        = List.range' 1 k ∧
      ((process_generation db st rid now call).1.gen_images.filter
          (fun g => g.generation_request_id == rid)).length = k := by
  have heqid : req.id = rid := by simpa using List.find?_some hfind
  subst heqid
  have hcall0 : ∀ j, j < k →
      ∃ b, generate_single_image (call (0 + j)) = .ok b ∧ b ≠ [] := by
    intro j hj
    simpa [Nat.zero_add] using hcall j hj
  have herr0 : generate_single_image (call (0 + k)) = .error e := by
    simpa [Nat.zero_add] using herr
  obtain ⟨imgs, nid', st', heqloop, hidx, hrid⟩ :=
    generation_loop_err call req.id product.id product.slug e k 0
      db.next_id st [] req.image_count hcall0 herr0 hk
  obtain ⟨r0, hsel⟩ := select_reference_image_of_ne_nil _ href
  have hidx1 : imgs.map (fun g => g.generation_index) = List.range' 1 k := by
    rw [hidx, map_add_one_range']
  have h1 := find?_update_of_found hfind
    { req with status := .processing, started_at := some now } (by simp)
  simp only [process_generation, hfind, setRequest]
  simp only [hres, hprod, hsel]
  rw [List.range_eq_range']
  simp only [heqloop, failRequest, setRequest]
  refine ⟨_, find?_update_of_found h1 _ (by simp), rfl, rfl, rfl, ?_, ?_⟩
  · simp only [List.filter_append, hold, List.nil_append,
      filter_keep_rid imgs req.id hrid]
    exact hidx1
  · simp only [List.filter_append, hold, List.nil_append,
      filter_keep_rid imgs req.id hrid]
    have := congrArg List.length hidx1
    simpa using this

/-- Witness for completed_request_has_all_images: a concrete one-image
request whose single call yields an image. -/
theorem completed_request_has_all_images_witness :
    ∃ req', ((process_generation c3db exStA 4 10
        (fun _ => .ok [.image [7, 7]])).1.gen_requests.find?
        (fun r => r.id == 4)) = some req' ∧
      req'.status = .completed ∧ req'.completed_at = some 10 ∧
      req'.started_at = some 10 ∧
      (((process_generation c3db exStA 4 10
          (fun _ => .ok [.image [7, 7]])).1.gen_images.filter
          (fun g => g.generation_request_id == 4)).map
          (fun g => g.generation_index)) = List.range' 1 1 ∧
      (((process_generation c3db exStA 4 10
          (fun _ => .ok [.image [7, 7]])).1.gen_images.filter
          (fun g => g.generation_request_id == 4))).length = 1 ∧
      (∀ g ∈ (process_generation c3db exStA 4 10
          (fun _ => .ok [.image [7, 7]])).1.gen_images.filter
          (fun g => g.generation_request_id == 4),
        ∃ c, getFile (process_generation c3db exStA 4 10
          (fun _ => .ok [.image [7, 7]])).2.files g.storage_path
          = some c ∧ c ≠ []) :=
  completed_request_has_all_images c3db exStA 4 10
    (fun _ => .ok [.image [7, 7]]) c3req exSpecActive exProduct (by decide)
    (by decide) (by decide) (by decide) rfl
    (fun j hj => ⟨[7, 7], rfl, by decide⟩)

/-- Witness for failed_request_keeps_prior_images: a concrete two-image
request whose first call yields an image and whose second call raises. -/
theorem failed_request_keeps_prior_images_witness :
    ∃ req', ((process_generation c4db exStA 4 10
        (fun i => if i == 0 then .ok [.image [7]]
          else .error "kaboom")).1.gen_requests.find?
        (fun r => r.id == 4)) = some req' ∧
      req'.status = .failed ∧ req'.error_message = some "kaboom" ∧
      req'.completed_at = some 10 ∧
      (((process_generation c4db exStA 4 10
          (fun i => if i == 0 then .ok [.image [7]]
            else .error "kaboom")).1.gen_images.filter
          (fun g => g.generation_request_id == 4)).map
          (fun g => g.generation_index)) = List.range' 1 1 ∧
      (((process_generation c4db exStA 4 10
          (fun i => if i == 0 then .ok [.image [7]]
            else .error "kaboom")).1.gen_images.filter
          (fun g => g.generation_request_id == 4))).length = 1 :=
  failed_request_keeps_prior_images c4db exStA 4 10
    (fun i => if i == 0 then .ok [.image [7]] else .error "kaboom") c4req
    exSpecActive exProduct 1 "kaboom" (by decide) (by decide) (by decide)
    (by decide) rfl (by decide)
    (fun j hj => ⟨[7], by
      have hj0 : j = 0 := by omega
      subst hj0
      rfl, by decide⟩)
    rfl
